import Mathlib

/-!
Verification of `utils/service_discovery/abstract_config_store.py` (dd-agent).

The file shallowly embeds the config-store core: auto-configuration lookup
(`_get_auto_config`), template resolution (`get_check_tpls`), change
detection (`crawl_config_template`), and the `StubStore` variant.

Modelling conventions:
* Backend reads (`client_read`) are passed in as explicit outcomes
  (`Except BackendExc _` for the three template keys, `CrawlRead` for the
  recursive watch read), since the concrete backend clients are external
  collaborators.
* The auto-configuration catalog (`get_check_class`, `get_auto_conf` from
  `utils.checkfiles`, external to this file) is a record of functions; its
  default templates are structured JSON objects with primitive values,
  matching the catalog contract `getDefaultTemplate(checkName) ->
  { initConfig, instances[] }` where both configs are (serialized-)object
  values.
* `json.dumps` (simplejson, default separators `, ` and `: `, no indent) is
  modelled by `dumpsObj`/`dumpsPrim` on that JSON fragment.
* The mutable `previous_config_index` attribute is threaded explicitly:
  `crawl_config_template` takes the stored marker and returns the pair of
  (result-or-raised-error, new stored marker).
-/

/-- A JSON primitive value, as found in auto-conf template files. -/
inductive JsonPrim where
  | str (s : String)
  | num (n : Int)
  | bool (b : Bool)
  | null
deriving DecidableEq

/-- A JSON object with primitive values: the shape of `init_config` and of
each element of `instances` in an auto-conf catalog entry. -/
abbrev JsonObj := List (String × JsonPrim)

/-- String escaping as performed by `json.dumps` on the characters that can
occur in catalog data (backslash and double quote). -/
def escapeChar (c : Char) : String :=
  if c = '"' then "\\\"" else if c = '\\' then "\\\\" else String.singleton c

def escapeString (s : String) : String :=
  String.join (s.toList.map escapeChar)

/-- `json.dumps` on a primitive value. -/
def dumpsPrim : JsonPrim → String
  | .str s => "\"" ++ escapeString s ++ "\""
  | .num n => toString n
  | .bool b => if b then "true" else "false"
  | .null => "null"

/-- `json.dumps` on an object: default separators are `", "` between items
and `": "` between a key and its value. -/
def dumpsObj (o : JsonObj) : String :=
  "\x7b" ++ String.intercalate ", "
    (o.map fun kv => "\"" ++ escapeString kv.1 ++ "\": " ++ dumpsPrim kv.2) ++ "\x7d"

/-- One auto-conf catalog entry: `auto_conf.get('init_config')` and
`auto_conf.get('instances')`. -/
structure AutoConf where
  init_config : Option JsonObj
  instances : Option (List JsonObj)

/-- The pieces of `AbstractConfigStore` state that template resolution
reads: `self.AUTO_CONF_IMAGES` (image name to check name), and the external
catalog collaborators `get_check_class` (modelled by whether a class is
found) and `get_auto_conf`. -/
structure ConfigStore where
  auto_conf_images : String → Option String
  check_class_exists : String → Bool
  get_auto_conf : String → AutoConf

/-- A template triple `(check_name, init_config_tpl, instance_tpl)`. -/
abbrev Template := String × String × String

def CONFIG_FROM_AUTOCONF : String := "auto-configuration"
def CONFIG_FROM_TEMPLATE : String := "template"

/-- `AbstractConfigStore._get_auto_config(image_name)`.
Returns `None` when the image is not in `AUTO_CONF_IMAGES` or the check
class is not found.  Python truthiness is preserved: a missing or empty
`init_config` yields the literal string `"{}"`, and only a present,
non-empty `instances` list contributes `json.dumps(instances[0])`. -/
def _get_auto_config (store : ConfigStore) (image_name : String) : Option Template :=
  match store.auto_conf_images image_name with
  | some check_name =>
    if store.check_class_exists check_name then
      let auto_conf := store.get_auto_conf check_name
      let init_config_tpl :=
        match auto_conf.init_config with
        | some ic => if ic.isEmpty then "{}" else dumpsObj ic
        | none => "{}"
      let instance_tpl :=
        match auto_conf.instances with
        | some (inst0 :: _) => dumpsObj inst0
        | _ => "{}"
      some (check_name, init_config_tpl, instance_tpl)
    else
      none
  | none => none

/-- The exceptions `get_check_tpls` distinguishes when a backend read
fails: `KeyNotFound`, `urllib3 TimeoutError`, or any other `Exception`. -/
inductive BackendExc where
  | keyNotFound
  | timeout
  | other
deriving DecidableEq

/-- The outcomes of the three `client_read` calls under
`sd_template_dir/image/{check_names, init_configs, instances}` for one
image. -/
structure TplBackendReads where
  check_names : Except BackendExc (List String)
  init_configs : Except BackendExc (List String)
  instances : Except BackendExc (List String)

/-- The body of the `try` block of `get_check_tpls`: the three reads in
source order; the first raised exception aborts the block. -/
def client_read_all (b : TplBackendReads) :
    Except BackendExc (List String × List String × List String) := do
  let check_names ← b.check_names
  let init_config_tpls ← b.init_configs
  let instance_tpls ← b.instances
  pure (check_names, init_config_tpls, instance_tpls)

/-- An element of the list returned by `get_check_tpls`: a bare template,
or a `(source, template)` pair when `trace_config` is set. -/
inductive TplEntry where
  | plain (tpl : Template)
  | traced (source : String) (tpl : Template)
deriving DecidableEq

/-- The tail of `get_check_tpls` after the arrays are in hand: the length
check over `check_names`, `init_config_tpls`, `instance_tpls` (mismatch
returns `None` for the whole image) and the index-wise assembly loop. -/
def build_templates (source : String) (trace_config : Bool)
    (check_names init_config_tpls instance_tpls : List String) :
    Option (List TplEntry) :=
  if check_names.length ≠ init_config_tpls.length ∨
      check_names.length ≠ instance_tpls.length then
    none
  else
    some ((check_names.zip (init_config_tpls.zip instance_tpls)).map
      fun e =>
        if trace_config then TplEntry.traced source (e.1, e.2.1, e.2.2)
        else TplEntry.plain (e.1, e.2.1, e.2.2))

/-- `AbstractConfigStore.get_check_tpls(image, **kwargs)` with
`auto_conf` and `trace_config` kwargs made explicit.
* `auto_conf = true` skips straight to `_get_auto_config`.
* Otherwise the three template keys are read; `KeyNotFound`/`TimeoutError`
  falls back to `_get_auto_config` (wrapping its triple into one-element
  arrays), any other exception returns `None`, and the arrays then pass
  through the length check and assembly loop. -/
def get_check_tpls (store : ConfigStore) (backend : TplBackendReads)
    (image : String) (auto_conf trace_config : Bool) : Option (List TplEntry) :=
  if auto_conf then
    match _get_auto_config store image with
    | some auto_config =>
      if trace_config then some [TplEntry.traced CONFIG_FROM_AUTOCONF auto_config]
      else some [TplEntry.plain auto_config]
    | none => none
  else
    match client_read_all backend with
    | .ok (check_names, init_config_tpls, instance_tpls) =>
      build_templates CONFIG_FROM_TEMPLATE trace_config
        check_names init_config_tpls instance_tpls
    | .error .keyNotFound =>
      match _get_auto_config store image with
      | some (c, i, n) =>
        build_templates CONFIG_FROM_AUTOCONF trace_config [c] [i] [n]
      | none => none
    | .error .timeout =>
      match _get_auto_config store image with
      | some (c, i, n) =>
        build_templates CONFIG_FROM_AUTOCONF trace_config [c] [i] [n]
      | none => none
    | .error .other => none

/-- The outcome of the recursive, watching `client_read` issued by
`crawl_config_template`: a version marker, or one of the two exceptions the
method handles (`KeyNotFound`, `TimeoutError`). -/
inductive CrawlRead (α : Type) where
  | ok (config_index : α)
  | keyNotFound
  | timeout

/-- `AbstractConfigStore.crawl_config_template()` with the stored
`previous_config_index` threaded explicitly.  Returns the boolean result or
the raised error message, together with the stored marker after the call.
`KeyNotFound` yields `false`; `TimeoutError` re-raises
`Exception('Request for the configuration template timed out.')` before any
assignment, leaving the stored marker untouched. -/
def crawl_config_template {α : Type} [DecidableEq α] (read : CrawlRead α)
    (previous_config_index : Option α) : Except String Bool × Option α :=
  match read with
  | .keyNotFound => (.ok false, previous_config_index)
  | .timeout =>
    (.error "Request for the configuration template timed out.",
      previous_config_index)
  | .ok config_index =>
    match previous_config_index with
    | none => (.ok false, some config_index)
    | some prev =>
      if config_index ≠ prev then (.ok true, some config_index)
      else (.ok false, previous_config_index)

/-- `StubStore.crawl_config_template()`: `return False`, no state read or
written. -/
def stubStore_crawl_config_template {α : Type} (previous_config_index : Option α) :
    Except String Bool × Option α :=
  (.ok false, previous_config_index)

/-- `StubStore` inherits `client_read`, which raises `NotImplementedError`
(an exception other than `KeyNotFound`/`TimeoutError`). -/
def stub_backend : TplBackendReads :=
  { check_names := .error .other
    init_configs := .error .other
    instances := .error .other }

/-- Modelled from the spec: the service-discovery callers of the config
store (not under `src/`) resolve templates through a `StubStore` only with
the `auto_conf=True` kwarg ("the try-template-store branch is skipped
unconditionally, equivalent to always `autoConfigOnly = true`"), since the
stub has no backend client. -/
def stubStore_get_check_tpls (store : ConfigStore) (image : String)
    (trace_config : Bool) : Option (List TplEntry) :=
  get_check_tpls store stub_backend image true trace_config

/-! Concrete fixtures used by witnesses and scenario claims. -/

/-- A store in which image `"redis"` is auto-configured to check
`"redisdb"`, whose catalog entry has no `init_config` and one default
instance `{"host": "localhost"}`. -/
def redis_store : ConfigStore :=
  { auto_conf_images := fun image => if image = "redis" then some "redisdb" else none
    check_class_exists := fun check_name => check_name = "redisdb"
    get_auto_conf := fun check_name =>
      if check_name = "redisdb" then
        { init_config := none
          instances := some [[("host", JsonPrim.str "localhost")]] }
      else
        { init_config := none, instances := none } }

/-- Backend reads that all raise `KeyNotFound` (the image directory is
absent from the template store). -/
def knf_backend : TplBackendReads :=
  { check_names := .error .keyNotFound
    init_configs := .error .keyNotFound
    instances := .error .keyNotFound }

/-- Backend reads that all time out. -/
def timeout_backend : TplBackendReads :=
  { check_names := .error .timeout
    init_configs := .error .timeout
    instances := .error .timeout }

/-- The mismatched-length scenario: two check names, two init configs,
one instance. -/
def mismatched_backend : TplBackendReads :=
  { check_names := .ok ["redisdb", "http_check"]
    init_configs := .ok ["{}", "{}"]
    instances := .ok ["\x7b\"host\": \"a\"\x7d"] }

/-! Claims about the change-detection protocol (`crawl_config_template`). -/

/-- C3: `crawl_config_template` returns `false` on the very first
successful call regardless of the marker read (it only stores the marker as
baseline), and any call whose marker equals the stored one returns `false`
without mutating `previous_config_index`. -/
theorem crawl_first_call_false_and_idempotent {α : Type} [DecidableEq α]
    (idx : α) (st : Option α) (h : st = some idx) :
    crawl_config_template (CrawlRead.ok idx) none = (Except.ok false, some idx) ∧
    crawl_config_template (CrawlRead.ok idx) st = (Except.ok false, st) := by
  subst h
  simp [crawl_config_template]

theorem crawl_first_call_false_and_idempotent_witness :
    crawl_config_template (CrawlRead.ok (0 : Nat)) none = (Except.ok false, some 0) ∧
    crawl_config_template (CrawlRead.ok (0 : Nat)) (some 0) = (Except.ok false, some 0) :=
  crawl_first_call_false_and_idempotent 0 (some 0) rfl

/-- C4: once a baseline is stored, a call observing a different marker
returns `true` and updates the stored marker, and further calls observing
that same new marker return `false`. -/
theorem crawl_detects_change_once {α : Type} [DecidableEq α]
    (prev idx : α) (h : idx ≠ prev) :
    crawl_config_template (CrawlRead.ok idx) (some prev) = (Except.ok true, some idx) ∧
    crawl_config_template (CrawlRead.ok idx) (some idx) = (Except.ok false, some idx) := by
  simp [crawl_config_template, h]

theorem crawl_detects_change_once_witness :
    crawl_config_template (CrawlRead.ok (1 : Nat)) (some 0) = (Except.ok true, some 1) ∧
    crawl_config_template (CrawlRead.ok (1 : Nat)) (some 1) = (Except.ok false, some 1) :=
  crawl_detects_change_once 0 1 (by decide)

/-- C5: `crawl_config_template` raises exactly on a backend timeout (the
`Exception` whose message reports the timed-out template request), returns
`false` without raising on `KeyNotFound`, and never raises on a successful
read. -/
theorem crawl_raises_exactly_on_timeout {α : Type} [DecidableEq α]
    (st : Option α) (idx : α) :
    (crawl_config_template CrawlRead.timeout st).1 =
      Except.error "Request for the configuration template timed out." ∧
    crawl_config_template CrawlRead.keyNotFound st = (Except.ok false, st) ∧
    ∃ b, (crawl_config_template (CrawlRead.ok idx) st).1 = Except.ok b := by
  refine ⟨rfl, rfl, ?_⟩
  cases st with
  | none => exact ⟨false, rfl⟩
  | some prev =>
    by_cases h : idx = prev
    · subst h
      exact ⟨false, by simp [crawl_config_template]⟩
    · exact ⟨true, by simp [crawl_config_template, h]⟩

theorem crawl_raises_exactly_on_timeout_witness :
    (crawl_config_template CrawlRead.timeout (some (0 : Nat))).1 =
      Except.error "Request for the configuration template timed out." ∧
    crawl_config_template CrawlRead.keyNotFound (some (0 : Nat)) = (Except.ok false, some 0) ∧
    ∃ b, (crawl_config_template (CrawlRead.ok (1 : Nat)) (some 0)).1 = Except.ok b :=
  crawl_raises_exactly_on_timeout (some 0) 1

/-- C10: when `crawl_config_template` raises because the backend read timed
out, the stored `previous_config_index` is exactly what it was before the
call: a failed poll neither establishes a baseline nor overwrites one. -/
theorem crawl_timeout_preserves_state {α : Type} [DecidableEq α] (st : Option α) :
    (crawl_config_template CrawlRead.timeout st).2 = st ∧
    (crawl_config_template CrawlRead.timeout st).1 =
      Except.error "Request for the configuration template timed out." :=
  ⟨rfl, rfl⟩

theorem crawl_timeout_preserves_state_witness :
    (crawl_config_template CrawlRead.timeout (some (5 : Nat))).2 = some 5 ∧
    (crawl_config_template CrawlRead.timeout (some (5 : Nat))).1 =
      Except.error "Request for the configuration template timed out." :=
  crawl_timeout_preserves_state (some 5)

/-! Claims about template resolution (`get_check_tpls`, `_get_auto_config`). -/

/-- `json.dumps(init_config) if init_config else '{}'` agrees with plain
serialization on every present object, because an empty object serializes
to exactly `"{}"`. -/
theorem dumpsObj_truthy (ic : JsonObj) :
    (if ic.isEmpty then "{}" else dumpsObj ic) = dumpsObj ic := by
  cases ic with
  | nil => rfl
  | cons a l => rfl

/-- C1: whenever the three arrays `check_names`, `init_configs`,
`instances` reaching the length check (from a backend read, or synthesized
by the auto-config fallback) do not all have the same length, the result
for the image is `none`: no partial batch is ever returned. -/
theorem get_check_tpls_mismatch_none (store : ConfigStore)
    (backend : TplBackendReads) (image source : String) (trace_config : Bool)
    (check_names init_config_tpls instance_tpls : List String)
    (hlen : check_names.length ≠ init_config_tpls.length ∨
      check_names.length ≠ instance_tpls.length) :
    build_templates source trace_config check_names init_config_tpls
      instance_tpls = none ∧
    (client_read_all backend = .ok (check_names, init_config_tpls, instance_tpls) →
      get_check_tpls store backend image false trace_config = none) := by
  have hb : ∀ s : String, build_templates s trace_config check_names
      init_config_tpls instance_tpls = none := by
    intro s
    unfold build_templates
    rw [if_pos hlen]
  refine ⟨hb source, fun hread => ?_⟩
  unfold get_check_tpls
  rw [hread]
  simpa using hb CONFIG_FROM_TEMPLATE

theorem get_check_tpls_mismatch_none_witness :
    build_templates CONFIG_FROM_TEMPLATE false ["redisdb", "http_check"]
      ["{}", "{}"] ["\x7b\"host\": \"a\"\x7d"] = none ∧
    get_check_tpls redis_store mismatched_backend "redis" false false = none := by
  have h := get_check_tpls_mismatch_none redis_store mismatched_backend "redis"
    CONFIG_FROM_TEMPLATE false ["redisdb", "http_check"] ["{}", "{}"]
    ["\x7b\"host\": \"a\"\x7d"] (Or.inr (by decide))
  exact ⟨h.1, h.2 rfl⟩

/-- C2: when the backend read raises `KeyNotFound` or `TimeoutError` and
the auto-configuration lookup resolves, `get_check_tpls` returns exactly
that template as a one-element batch, tagged `CONFIG_FROM_AUTOCONF` when
tracing is requested. -/
theorem get_check_tpls_fallback_auto (store : ConfigStore)
    (backend : TplBackendReads) (image : String) (trace_config : Bool)
    (t : Template)
    (hread : client_read_all backend = Except.error BackendExc.keyNotFound ∨
      client_read_all backend = Except.error BackendExc.timeout)
    (hauto : _get_auto_config store image = some t) :
    get_check_tpls store backend image false trace_config =
      some [if trace_config then TplEntry.traced CONFIG_FROM_AUTOCONF t
            else TplEntry.plain t] := by
  obtain ⟨c, i, n⟩ := t
  cases hread with
  | inl h =>
    unfold get_check_tpls
    rw [h]
    simp [hauto, build_templates]
  | inr h =>
    unfold get_check_tpls
    rw [h]
    simp [hauto, build_templates]

theorem get_check_tpls_fallback_auto_witness :
    get_check_tpls redis_store timeout_backend "redis" false false =
      some [TplEntry.plain ("redisdb", "{}", "\x7b\"host\": \"localhost\"\x7d")] := by
  have h := get_check_tpls_fallback_auto redis_store timeout_backend "redis"
    false ("redisdb", "{}", "\x7b\"host\": \"localhost\"\x7d") (Or.inr rfl) rfl
  simpa using h

/-- C7: when the backend read raises any exception other than
`KeyNotFound`/`TimeoutError`, `get_check_tpls` returns `none` for the
image: no auto-config fallback, no retry, no propagation. -/
theorem get_check_tpls_other_error_none (store : ConfigStore)
    (backend : TplBackendReads) (image : String) (trace_config : Bool)
    (h : client_read_all backend = Except.error BackendExc.other) :
    get_check_tpls store backend image false trace_config = none := by
  unfold get_check_tpls
  rw [h]
  simp

theorem get_check_tpls_other_error_none_witness :
    get_check_tpls redis_store stub_backend "redis" false true = none :=
  get_check_tpls_other_error_none redis_store stub_backend "redis" true rfl

/-- C8: for an image mapped to a resolvable check, `_get_auto_config`
returns the mapped check name, the serialized catalog `init_config` (the
string `"{}"` when absent), and the serialization of only the first catalog
instance when `instances` is present and non-empty (otherwise `"{}"`); for
an image absent from the mapping it returns `none`, not an error. -/
theorem get_auto_config_spec (store : ConfigStore) (image check_name : String)
    (h1 : store.auto_conf_images image = some check_name)
    (h2 : store.check_class_exists check_name = true) :
    _get_auto_config store image = some (check_name,
      (match (store.get_auto_conf check_name).init_config with
       | some ic => dumpsObj ic
       | none => "{}"),
      (match (store.get_auto_conf check_name).instances with
       | some (inst0 :: _) => dumpsObj inst0
       | _ => "{}")) ∧
    (∀ image2, store.auto_conf_images image2 = none →
      _get_auto_config store image2 = none) := by
  constructor
  · unfold _get_auto_config
    rw [h1]
    simp only [h2, if_true]
    cases hic : (store.get_auto_conf check_name).init_config with
    | none => rfl
    | some ic => simp only [dumpsObj_truthy]
  · intro image2 h
    unfold _get_auto_config
    rw [h]

theorem get_auto_config_spec_witness :
    _get_auto_config redis_store "redis" =
      some ("redisdb", "{}", "\x7b\"host\": \"localhost\"\x7d") ∧
    _get_auto_config redis_store "mysql" = none := by
  have h := get_auto_config_spec redis_store "redis" "redisdb" rfl rfl
  exact ⟨h.1, h.2 "mysql" rfl⟩

/-- C6: `StubStore` resolution equals the core's `get_check_tpls` with
`auto_conf = true` for every backend (the template-store branch is never
taken), so its result is the auto-configuration template as a one-element
batch or `none`; and its `crawl_config_template` always returns `false`
without touching the stored marker. -/
theorem stubStore_resolution_and_crawl {α : Type} (store : ConfigStore)
    (backend : TplBackendReads) (image : String) (trace_config : Bool)
    (st : Option α) :
    stubStore_get_check_tpls store image trace_config =
      get_check_tpls store backend image true trace_config ∧
    stubStore_get_check_tpls store image trace_config =
      (match _get_auto_config store image with
       | some t => some [if trace_config then TplEntry.traced CONFIG_FROM_AUTOCONF t
                         else TplEntry.plain t]
       | none => none) ∧
    stubStore_crawl_config_template st = (Except.ok false, st) := by
  refine ⟨rfl, ?_, rfl⟩
  unfold stubStore_get_check_tpls get_check_tpls
  cases _get_auto_config store image with
  | none => rfl
  | some t => cases trace_config <;> rfl

theorem stubStore_resolution_and_crawl_witness :
    stubStore_get_check_tpls redis_store "redis" true =
      get_check_tpls redis_store mismatched_backend "redis" true true ∧
    stubStore_get_check_tpls redis_store "redis" true =
      (match _get_auto_config redis_store "redis" with
       | some t => some [if true then TplEntry.traced CONFIG_FROM_AUTOCONF t
                         else TplEntry.plain t]
       | none => none) ∧
    stubStore_crawl_config_template (some (0 : Nat)) = (Except.ok false, some 0) :=
  stubStore_resolution_and_crawl redis_store mismatched_backend "redis" true (some 0)

/-- C9 counterexample: in the redis scenario the claimed instance string
`"\x7b\"host\":\"localhost\"\x7d"` (no space after the colon) is not what
resolution returns, because `json.dumps` uses the default key separator
`": "`. -/
theorem redis_scenario_no_space_false :
    get_check_tpls redis_store knf_backend "redis" false true ≠
      some [TplEntry.traced CONFIG_FROM_AUTOCONF
        ("redisdb", "{}", "\x7b\"host\":\"localhost\"\x7d")] := by
  decide

/-- C9 (amended): image `"redis"` absent from the backend (`KeyNotFound`),
auto-configured as check `"redisdb"` with default instance
`{"host": "localhost"}` and no `init_config`, resolves with tracing to the
single template `("redisdb", "{}", "\x7b\"host\": \"localhost\"\x7d")` — with
`json.dumps`'s default `": "` key separator — from source
`CONFIG_FROM_AUTOCONF`. -/
theorem redis_scenario_auto_config :
    get_check_tpls redis_store knf_backend "redis" false true =
      some [TplEntry.traced CONFIG_FROM_AUTOCONF
        ("redisdb", "{}", "\x7b\"host\": \"localhost\"\x7d")] := by
  decide
